import Mathlib

/-!
Verification of the summarization / translation / session-cache logic of the
briefly browser extension against its natural-language specification.

The JavaScript sources embedded here are:
* `src/ai-summarizer.js` — the `AISummarizer` class: provider availability
  checks, the Groq→Gemini orchestration in `summarize`, the bullet-point
  sanitization pipeline duplicated in `summarizeWithGroq` (lines 132–149) and
  `summarizeWithGemini` (lines 245–262), and the batch `translate`.
* `src/options.js` (content-script portion) — the module-level session cache
  (`cachedUrl` / `cachedSummary` / `cachedTitle` / `currentSummaryPoints`),
  the cache read and write in `displaySummary`, and `handleTranslate`.

Strings are embedded as `List Char` (JavaScript strings at the code-point
level; every input considered lives in the BMP, where code-point length and
JS UTF-16 `.length` coincide).
-/

namespace Briefly

/-- Character set matched by JavaScript `\s` and removed by `String.trim`:
ASCII whitespace, NBSP, BOM, and the Unicode space separators. -/
def isJsWhite (c : Char) : Bool :=
  c.val = 9 || c.val = 10 || c.val = 11 || c.val = 12 || c.val = 13 ||
  c.val = 32 || c.val = 0xA0 || c.val = 0x1680 ||
  (0x2000 ≤ c.val && c.val ≤ 0x200A) ||
  c.val = 0x2028 || c.val = 0x2029 || c.val = 0x202F || c.val = 0x205F ||
  c.val = 0x3000 || c.val = 0xFEFF

/-- Membership in the character class `[•\-\*\d+\.\)]` of the marker-stripping
regex in `src/ai-summarizer.js` line 136 / line 249.  Note that the class
matches ONE character drawn from bullet, dash, asterisk, a digit, plus,
period, or closing parenthesis. -/
def isMarkerChar (c : Char) : Bool :=
  c = '•' || c = '-' || c = '*' || c.isDigit || c = '+' || c = '.' || c = ')'

/-- Left half of JavaScript `String.trim`. -/
def trimLeftWs (l : List Char) : List Char :=
  l.dropWhile isJsWhite

/-- Right half of JavaScript `String.trim`. -/
def trimRightWs (l : List Char) : List Char :=
  (l.reverse.dropWhile isJsWhite).reverse

/-- JavaScript `String.trim`: remove leading and trailing whitespace. -/
def jsTrim (l : List Char) : List Char :=
  trimRightWs (trimLeftWs l)

/-- JavaScript `line.replace(/^[•\-\*\d+\.\)]\s*/, '')`
(src/ai-summarizer.js line 136 and line 249): if the first character is in
the class, remove it together with the whitespace that follows; otherwise
the line is unchanged. -/
def stripMarker : List Char → List Char
  | [] => []
  | c :: rest => if isMarkerChar c then rest.dropWhile isJsWhite else c :: rest

/-- Whether a line begins with a character of the marker class. -/
def headIsMarker : List Char → Bool
  | [] => false
  | c :: _ => isMarkerChar c

/-- JavaScript `text.split('\n')` (one piece more than separators; splitting
the empty string yields one empty piece). -/
def splitOnLF : List Char → List (List Char)
  | [] => [[]]
  | c :: rest =>
    match splitOnLF rest with
    | [] => [[]]
    | p :: ps => if c = '\n' then [] :: p :: ps else (c :: p) :: ps

/-- Join pieces back with a newline, the inverse used to express re-running
the pipeline on its own output. -/
def joinLF : List (List Char) → List Char
  | [] => []
  | [p] => p
  | p :: q :: r => p ++ '\n' :: joinLF (q :: r)

/-- JavaScript `/[.!?]$/.test(lastPoint)` (src/ai-summarizer.js line 142 /
line 255). -/
def endsPunct (l : List Char) : Bool :=
  match l.getLast? with
  | some c => c = '.' || c = '!' || c = '?'
  | none => false

/-- Stages 1–2 of the pipeline: `.split('\n').map(line => line.trim())
.filter(line => line.length > 0)` (src/ai-summarizer.js lines 133–135). -/
def rawLines (raw : List Char) : List (List Char) :=
  ((splitOnLF raw).map jsTrim).filter (fun l => decide (0 < l.length))

/-- Stage 3: `.map(line => line.replace(/^[•\-\*\d+\.\)]\s*/, '').trim())`
(src/ai-summarizer.js line 136). -/
def strippedLines (raw : List Char) : List (List Char) :=
  (rawLines raw).map (fun l => jsTrim (stripMarker l))

/-- Stage 4: `.filter(line => line.length > 20)` (src/ai-summarizer.js
line 137): only lines STRICTLY longer than 20 characters survive. -/
def lengthFilter (lines : List (List Char)) : List (List Char) :=
  lines.filter (fun l => decide (20 < l.length))

/-- Stages 1–4 composed. -/
def preSanitize (raw : List Char) : List (List Char) :=
  lengthFilter (strippedLines raw)

/-- Stage 5: `if (points.length > 0) { ... if (!endsWithPunctuation)
points.pop() }` (src/ai-summarizer.js lines 140–147): drop the last point
once when it does not end in `.`, `!` or `?`. -/
def popIncomplete (pts : List (List Char)) : List (List Char) :=
  match pts.getLast? with
  | some lastPoint => if endsPunct lastPoint then pts else pts.dropLast
  | none => pts

/-- The full sanitization pipeline applied to the raw provider text. -/
def sanitize (raw : List Char) : List (List Char) :=
  popIncomplete (preSanitize raw)

/-- Bullet-point parsing of `summarizeWithGroq` (src/ai-summarizer.js
lines 132–149) applied to the generated text. -/
def groqParsePoints (generatedText : String) : List String :=
  (sanitize generatedText.data).map (fun l => String.mk l)

/-- Bullet-point parsing of `summarizeWithGemini` (src/ai-summarizer.js
lines 245–262); the code is character-for-character the Groq one. -/
def geminiParsePoints (generatedText : String) : List String :=
  (sanitize generatedText.data).map (fun l => String.mk l)

/-! ## Orchestration: `AISummarizer.summarize` (src/ai-summarizer.js lines 16–56)

The two provider attempts are opaque network interactions; an environment
records what each attempt would yield if it were made.  `summarize` returns
the JavaScript result (resolved points or the thrown error message) together
with the list of provider attempts actually issued, in order. -/

/-- Message of the error thrown at src/ai-summarizer.js line 55. -/
def apiKeyRequiredMsg : String :=
  "API key required. Please configure Groq or Gemini API key in extension options."

/-- Embeds `isGroqAvailable` (src/ai-summarizer.js lines 16–18):
`this.groqApiKey !== null && this.groqApiKey.trim() !== ''`. -/
def isGroqAvailable (groqApiKey : Option String) : Bool :=
  match groqApiKey with
  | none => false
  | some k => !(jsTrim k.data).isEmpty

/-- Embeds `isGeminiAvailable` (src/ai-summarizer.js lines 24–26), the same
check on the Gemini key. -/
def isGeminiAvailable (geminiApiKey : Option String) : Bool :=
  match geminiApiKey with
  | none => false
  | some k => !(jsTrim k.data).isEmpty

/-- Spec-side predicate, worded from the claim: a credential that is null or
consists only of whitespace. -/
def specNullOrBlank : Option String → Bool
  | none => true
  | some k => k.data.all isJsWhite

/-- A network attempt against one of the two providers. -/
inductive ProviderCall where
  | groq
  | gemini
deriving DecidableEq, Repr

/-- What each provider attempt would produce: the parsed points on success,
or the message of the error it throws. -/
structure ProviderEnv where
  groqOutcome : Except String (List String)
  geminiOutcome : Except String (List String)

/-- Embeds `summarize` (src/ai-summarizer.js lines 34–56): try Groq if
available, swallowing its error; then try Gemini if available, rethrowing its
error; otherwise throw the `API key required` error.  The second component
lists the provider attempts issued. -/
def summarize (groqApiKey geminiApiKey : Option String) (env : ProviderEnv) :
    Except String (List String) × List ProviderCall :=
  if isGroqAvailable groqApiKey then
    match env.groqOutcome with
    | .ok pts => (.ok pts, [.groq])
    | .error _ =>
      if isGeminiAvailable geminiApiKey then
        match env.geminiOutcome with
        | .ok pts => (.ok pts, [.groq, .gemini])
        | .error e => (.error e, [.groq, .gemini])
      else
        (.error apiKeyRequiredMsg, [.groq])
  else
    if isGeminiAvailable geminiApiKey then
      match env.geminiOutcome with
      | .ok pts => (.ok pts, [.gemini])
      | .error e => (.error e, [.gemini])
    else
      (.error apiKeyRequiredMsg, [])

/-! ## Translation: `AISummarizer.translate` (src/ai-summarizer.js lines 271–315)

Each point is translated by an independent request; the per-item network
interaction is recorded by an `ItemResponse`.  `translatePoint` embeds the
inner `translatePoint` closure (lines 290–305); the whole batch is
`Promise.all(points.map(p => translatePoint(p)))` (line 309), which the
sequential embedding renders as a positional map. -/

/-- Outcome of the network interaction for a single item: the fetch rejected
(or `res.json()` failed), the response had a non-success status, or JSON
arrived, in which case `data[0]` is either falsy (`none`) or an array of
segments whose first components are the optional strings below (`s[0]`
missing is rendered by JavaScript `join` as the empty string). -/
inductive ItemResponse where
  | netError
  | httpError (status : Nat)
  | json (firstField : Option (List (Option String)))
deriving DecidableEq, Repr

/-- Whether the response is one of the per-item failure shapes named by the
spec: network error, non-success status, or malformed (falsy) payload. -/
def itemFailed : ItemResponse → Bool
  | .netError => true
  | .httpError _ => true
  | .json none => true
  | .json (some _) => false

/-- JavaScript `Array.join('')` stringification of an `s[0]` segment:
`undefined` contributes the empty string. -/
def segText : Option String → String
  | some t => t
  | none => ""

/-- Embeds the `translatePoint` closure (src/ai-summarizer.js lines 290–305):
on any caught failure or falsy `data[0]` return the original text, otherwise
`data[0].map(s => s[0]).join('')`. -/
def translatePoint (text : String) (resp : ItemResponse) : String :=
  match resp with
  | .netError => text
  | .httpError _ => text
  | .json none => text
  | .json (some segs) => String.join (segs.map segText)

/-- Positional traversal implementing `points.map(p => translatePoint(p))`
with the response environment indexed by item position. -/
def translateGo (i : Nat) (env : Nat → ItemResponse) : List String → List String
  | [] => []
  | p :: ps => translatePoint p (env i) :: translateGo (i + 1) env ps

/-- Embeds `translate` (src/ai-summarizer.js lines 271–315) for a fixed
target language: all items dispatched independently, results collected
positionally.  The outer `try/catch` around `Promise.all` is unreachable
because every per-item promise resolves, so the embedding is total. -/
def translate (points : List String) (env : Nat → ItemResponse) : List String :=
  translateGo 0 env points

/-! ## Content script state (src/options.js content-script portion)

The module-level variables `cachedUrl`, `cachedSummary`, `cachedTitle`
(lines 193–195, `null` rendered as `none`) and `currentSummaryPoints`
(line 190) form the state. -/

/-- The session-cache state of the content script. -/
structure ScriptState where
  cachedUrl : Option String
  cachedSummary : Option (List String)
  cachedTitle : Option String
  currentSummaryPoints : List String
deriving DecidableEq, Repr

/-- Embeds the cache read of `displaySummary` (src/options.js line 326):
`cachedUrl === currentUrl && cachedSummary && cachedTitle` — the stored URL
must equal the current one, the summary array must be non-null (arrays are
truthy even when empty), and the title must be non-null and non-empty. -/
def cacheGet (s : ScriptState) (currentUrl : String) : Option (String × List String) :=
  match s.cachedUrl, s.cachedSummary, s.cachedTitle with
  | some u, some pts, some t =>
    if u = currentUrl ∧ t ≠ "" then some (t, pts) else none
  | _, _, _ => none

/-- Embeds the cache write of `displaySummary` (src/options.js lines 381–386):
assign `cachedUrl`, `cachedSummary`, `cachedTitle` and `currentSummaryPoints`. -/
def cachePut (s : ScriptState) (url title : String) (pts : List String) : ScriptState :=
  { s with cachedUrl := some url, cachedSummary := some pts,
           cachedTitle := some title, currentSummaryPoints := pts }

/-- Resolution of the `summarizer.summarize` call observed by
`displaySummary`: it threw, or it resolved with a falsy value (`none`), or it
resolved with an array. -/
inductive SummarizeResult where
  | failed (msg : String)
  | resolved (pts : Option (List String))
deriving DecidableEq, Repr

/-- What `displaySummary` rendered into the panel. -/
inductive DisplayAction where
  | showedError (msg : String)
  | displayedPoints (title : String) (pts : List String)
deriving DecidableEq, Repr

/-- Embeds the tail of `displaySummary` (src/options.js lines 364–397), from
the point where the `summarize` call has settled: a thrown error or a falsy /
empty result shows an error and returns without touching the cache; a
non-empty result is cached and displayed. -/
def handleSummarizeResult (s : ScriptState) (currentUrl articleTitle : String)
    (res : SummarizeResult) : ScriptState × DisplayAction :=
  match res with
  | .failed msg =>
    (s, .showedError ("An error occurred while summarizing: " ++ msg ++
      ". Please check your API key in extension options."))
  | .resolved none =>
    (s, .showedError "Could not generate summary. Please check your API key and try again.")
  | .resolved (some pts) =>
    if pts.length = 0 then
      (s, .showedError "Could not generate summary. Please check your API key and try again.")
    else
      (cachePut s currentUrl articleTitle pts, .displayedPoints articleTitle pts)

/-- Embeds the list-mode success path of `handleTranslate` (src/options.js
lines 509–578) when the panel shows a summary: the batch handed to
`translate` is title, subtitle, then `currentSummaryPoints` (lines 514–524);
the first two results restyle the header (lines 557–563); the remaining
results (`slice(2)`, line 566) are re-rendered and assigned to
`currentSummaryPoints` (line 572).  No cache variable is assigned. -/
def handleTranslateList (s : ScriptState) (titleText subtitleText : String)
    (env : Nat → ItemResponse) : ScriptState :=
  let textToTranslate := titleText :: subtitleText :: s.currentSummaryPoints
  let translatedResult := translate textToTranslate env
  let contentResults := translatedResult.drop 2
  { s with currentSummaryPoints := contentResults }

/-! ## Concrete inputs used by the claim-level statements -/

/-- Error a failing Groq attempt would throw (src/ai-summarizer.js line 121). -/
def c1GroqError : String := "Groq API error: 429 - rate limited"

/-- Provider environment in which the Groq attempt fails. -/
def c1Env : ProviderEnv :=
  { groqOutcome := .error c1GroqError, geminiOutcome := .error "unused" }

/-- Content-script state directly after a successful summarization of one
page. -/
def c2Initial : ScriptState :=
  cachePut ⟨none, none, none, []⟩ "https://example.com/a" "Title A" ["Original point one."]

/-- Response environment in which every translation request succeeds and
returns the text `TR`. -/
def c2Env : Nat → ItemResponse := fun _ => ItemResponse.json (some [some "TR"])

/-- The raw three-line provider response of the spec's pipeline example. -/
def c3Raw : String := "1. Short.\n2. This is a sufficiently long bullet point that should survive filtering.\nIncomplete without end"

/-- Raw response whose first (non-final) parsed line lacks terminal
punctuation while the last line has it. -/
def c4Raw : String := "This first line is long enough but has no ending punctuation marker\nThis second line is also long enough and ends with a period."

/-- Raw single-line response that the pipeline maps to itself. -/
def c4WitnessRaw : String := "This witness sentence is long enough to survive the filter."

/-- Raw response starting with a digit: the pipeline output ends in a period
yet still begins with a character of the marker class. -/
def c5Raw : String := "2025 was a wonderful year for all of the team members."

/-- Raw response whose sanitized output begins with a non-marker character. -/
def c5WitnessRaw : String := "A first proper witness sentence that is long enough."

/-- The translation batch of the spec's order-preservation example. -/
def c6Items : List String := ["Title", "Subtitle", "Point A", "Point B"]

/-- Per-item responses of that example: items 0, 2 and 3 translate, item 1
suffers a network error. -/
def c6Env : Nat → ItemResponse := fun i =>
  match i with
  | 0 => .json (some [some "T"])
  | 1 => .netError
  | 2 => .json (some [some "A"])
  | 3 => .json (some [some "B"])
  | _ => .netError

/-- The content script's initial state: all cache variables `null`. -/
def initialState : ScriptState := ⟨none, none, none, []⟩

/-- A stripped line of exactly 20 characters, ending with a period. -/
def c8Line : String := "aaaaaaaaaaaaaaaaaaa."

/-- A stripped line of 21 characters, ending with a period. -/
def c8WitnessLine : String := "aaaaaaaaaaaaaaaaaaaa."

/-! ## Helper lemmas about trimming and splitting -/

theorem dropWhile_dropWhile (p : Char → Bool) (l : List Char) :
    (l.dropWhile p).dropWhile p = l.dropWhile p := by
  induction l with
  | nil => rfl
  | cons c t ih =>
    by_cases h : p c <;> simp [List.dropWhile_cons, h, ih]

theorem mem_of_mem_dropWhile (p : Char → Bool) (l : List Char) (a : Char)
    (h : a ∈ l.dropWhile p) : a ∈ l := by
  have := List.takeWhile_append_dropWhile p l
  rw [← this]
  exact List.mem_append.mpr (Or.inr h)

theorem all_of_dropWhile_all (p : Char → Bool) (l : List Char)
    (h : ∀ x ∈ l.dropWhile p, p x) : ∀ x ∈ l, p x := by
  intro x hx
  rw [← List.takeWhile_append_dropWhile p l] at hx
  rcases List.mem_append.mp hx with hx | hx
  · exact List.mem_takeWhile_imp hx
  · exact h x hx

theorem trimLeftWs_eq_nil_iff (l : List Char) :
    trimLeftWs l = [] ↔ ∀ x ∈ l, isJsWhite x := by
  unfold trimLeftWs
  rw [List.dropWhile_eq_nil_iff]

theorem trimRightWs_eq_nil_iff (l : List Char) :
    trimRightWs l = [] ↔ ∀ x ∈ l, isJsWhite x := by
  unfold trimRightWs
  rw [List.reverse_eq_nil_iff, List.dropWhile_eq_nil_iff]
  constructor
  · intro h x hx
    exact h x (List.mem_reverse.mpr hx)
  · intro h x hx
    exact h x (List.mem_reverse.mp hx)

theorem jsTrim_eq_nil_iff (l : List Char) :
    jsTrim l = [] ↔ ∀ x ∈ l, isJsWhite x := by
  unfold jsTrim
  rw [trimRightWs_eq_nil_iff]
  constructor
  · intro h
    exact all_of_dropWhile_all _ _ h
  · intro h x hx
    exact h x (mem_of_mem_dropWhile _ _ _ hx)

theorem mem_of_mem_trimLeftWs (l : List Char) (a : Char)
    (h : a ∈ trimLeftWs l) : a ∈ l :=
  mem_of_mem_dropWhile _ _ _ h

theorem mem_of_mem_trimRightWs (l : List Char) (a : Char)
    (h : a ∈ trimRightWs l) : a ∈ l := by
  unfold trimRightWs at h
  exact List.mem_reverse.mp (mem_of_mem_dropWhile _ _ _ (List.mem_reverse.mp h))

theorem mem_of_mem_jsTrim (l : List Char) (a : Char)
    (h : a ∈ jsTrim l) : a ∈ l :=
  mem_of_mem_trimLeftWs _ _ (mem_of_mem_trimRightWs _ _ h)

theorem mem_of_mem_stripMarker (l : List Char) (a : Char)
    (h : a ∈ stripMarker l) : a ∈ l := by
  match l with
  | [] => exact h
  | c :: rest =>
    by_cases hc : isMarkerChar c
    · rw [show stripMarker (c :: rest) = rest.dropWhile isJsWhite by
        simp [stripMarker, hc]] at h
      exact List.mem_cons_of_mem c (mem_of_mem_dropWhile _ _ _ h)
    · rwa [show stripMarker (c :: rest) = c :: rest by simp [stripMarker, hc]] at h

/-- Appending a non-whitespace final character commutes with a left
whitespace strip. -/
theorem dropWhile_append_singleton (p : Char → Bool) (u : List Char) (c : Char)
    (hc : p c = false) :
    (u ++ [c]).dropWhile p = u.dropWhile p ++ [c] := by
  induction u with
  | nil => simp [List.dropWhile_cons, hc]
  | cons a u ih =>
    by_cases h : p a <;> simp [List.dropWhile_cons, h, ih]

theorem trimRightWs_cons_of_neg (c : Char) (t : List Char)
    (hc : isJsWhite c = false) :
    trimRightWs (c :: t) = c :: trimRightWs t := by
  unfold trimRightWs
  rw [List.reverse_cons, dropWhile_append_singleton _ _ _ hc]
  simp

theorem trimLeftWs_idem (l : List Char) :
    trimLeftWs (trimLeftWs l) = trimLeftWs l :=
  dropWhile_dropWhile _ _

theorem trimRightWs_idem (l : List Char) :
    trimRightWs (trimRightWs l) = trimRightWs l := by
  unfold trimRightWs
  rw [List.reverse_reverse, dropWhile_dropWhile]

/-- The head surviving a `dropWhile` fails the predicate. -/
theorem head_dropWhile_false (p : Char → Bool) (l : List Char) (c : Char)
    (t : List Char) (h : l.dropWhile p = c :: t) : p c = false := by
  induction l with
  | nil => simp at h
  | cons a l ih =>
    rw [List.dropWhile_cons] at h
    by_cases ha : p a
    · rw [if_pos ha] at h
      exact ih h
    · rw [if_neg ha] at h
      injection h with h1 h2
      subst h1
      simpa using ha

/-- The left end of a right-trimmed left-trimmed list needs no further
left trim. -/
theorem trimLeftWs_trimRightWs_trimLeftWs (l : List Char) :
    trimLeftWs (trimRightWs (trimLeftWs l)) = trimRightWs (trimLeftWs l) := by
  rcases hz : trimLeftWs l with _ | ⟨c, t⟩
  · rfl
  · have hc : isJsWhite c = false := head_dropWhile_false isJsWhite l c t hz
    rw [trimRightWs_cons_of_neg c t hc]
    unfold trimLeftWs
    rw [List.dropWhile_cons, if_neg (by simp [hc])]

theorem jsTrim_idem (l : List Char) : jsTrim (jsTrim l) = jsTrim l := by
  unfold jsTrim
  rw [trimLeftWs_trimRightWs_trimLeftWs, trimRightWs_idem]

/-- A line whose first character is not whitespace and not a marker is left
unchanged by the strip-and-trim of stage 3, provided it is already trimmed. -/
theorem stripMarker_of_head_not_marker (l : List Char)
    (h : headIsMarker l = false) : stripMarker l = l := by
  match l with
  | [] => rfl
  | c :: rest =>
    simp only [headIsMarker] at h
    simp [stripMarker, h]

/-! ## Splitting and joining on newlines -/

theorem splitOnLF_ne_nil (l : List Char) : splitOnLF l ≠ [] := by
  induction l with
  | nil => simp [splitOnLF]
  | cons c rest ih =>
    rcases h : splitOnLF rest with _ | ⟨p, ps⟩
    · exact absurd h ih
    · by_cases hc : c = '\n' <;> simp [splitOnLF, h, hc]

theorem no_lf_mem_splitOnLF (l : List Char) (p : List Char)
    (hp : p ∈ splitOnLF l) : '\n' ∉ p := by
  induction l generalizing p with
  | nil =>
    simp [splitOnLF] at hp
    subst hp
    simp
  | cons c rest ih =>
    rcases h : splitOnLF rest with _ | ⟨q, qs⟩
    · exact absurd h (splitOnLF_ne_nil rest)
    · by_cases hc : c = '\n'
      · rw [show splitOnLF (c :: rest) = [] :: q :: qs by simp [splitOnLF, h, hc]] at hp
        rcases List.mem_cons.mp hp with rfl | hp
        · simp
        · exact ih p (h ▸ hp)
      · rw [show splitOnLF (c :: rest) = (c :: q) :: qs by simp [splitOnLF, h, hc]] at hp
        rcases List.mem_cons.mp hp with rfl | hp
        · intro hmem
          rcases List.mem_cons.mp hmem with he | hmem
          · exact hc he.symm
          · exact ih q (h ▸ List.mem_cons_self q qs) hmem
        · exact ih p (h ▸ List.mem_cons_of_mem q hp)

theorem splitOnLF_of_no_lf (p : List Char) (hp : '\n' ∉ p) : splitOnLF p = [p] := by
  induction p with
  | nil => rfl
  | cons c t ih =>
    have hc : c ≠ '\n' := fun e => hp (e ▸ List.mem_cons_self c t)
    have ht : '\n' ∉ t := fun m => hp (List.mem_cons_of_mem c m)
    simp [splitOnLF, ih ht, hc]

theorem splitOnLF_append_lf (p rest : List Char) (hp : '\n' ∉ p) :
    splitOnLF (p ++ '\n' :: rest) = p :: splitOnLF rest := by
  induction p with
  | nil =>
    rcases h : splitOnLF rest with _ | ⟨q, qs⟩
    · exact absurd h (splitOnLF_ne_nil rest)
    · simp [splitOnLF, h]
  | cons c t ih =>
    have hc : c ≠ '\n' := fun e => hp (e ▸ List.mem_cons_self c t)
    have ht : '\n' ∉ t := fun m => hp (List.mem_cons_of_mem c m)
    simp [splitOnLF, ih ht, hc]

theorem splitOnLF_joinLF (out : List (List Char))
    (h : ∀ p ∈ out, '\n' ∉ p) (hne : out ≠ []) :
    splitOnLF (joinLF out) = out := by
  induction out with
  | nil => exact absurd rfl hne
  | cons p rest ih =>
    cases rest with
    | nil => simpa [joinLF] using splitOnLF_of_no_lf p (h p (List.mem_cons_self p []))
    | cons q r =>
      rw [show joinLF (p :: q :: r) = p ++ '\n' :: joinLF (q :: r) from rfl]
      rw [splitOnLF_append_lf p _ (h p (List.mem_cons_self p (q :: r)))]
      rw [ih (fun x hx => h x (List.mem_cons_of_mem p hx)) (by simp)]

/-! ## Invariants of the sanitization pipeline -/

theorem mem_popIncomplete (pts : List (List Char)) (p : List Char)
    (h : p ∈ popIncomplete pts) : p ∈ pts := by
  rcases hl : pts.getLast? with _ | c
  · simpa [popIncomplete, hl] using h
  · by_cases he : endsPunct c
    · simpa [popIncomplete, hl, he] using h
    · rw [show popIncomplete pts = pts.dropLast by simp [popIncomplete, hl, he]] at h
      exact List.dropLast_subset pts h

theorem map_self_of_mem {α : Type} (l : List α) (f : α → α)
    (h : ∀ x ∈ l, f x = x) : l.map f = l := by
  rw [List.map_congr_left h]
  exact List.map_id l

/-- Every element surviving the full pipeline is a fixed point of trimming,
is strictly longer than 20 characters, and contains no newline. -/
theorem sanitize_elem_spec (raw : List Char) (p : List Char)
    (hp : p ∈ sanitize raw) :
    jsTrim p = p ∧ 20 < p.length ∧ '\n' ∉ p := by
  have hp1 : p ∈ preSanitize raw := mem_popIncomplete _ _ hp
  unfold preSanitize lengthFilter at hp1
  obtain ⟨hp2, hlen⟩ := List.mem_filter.mp hp1
  have hlen : 20 < p.length := of_decide_eq_true hlen
  unfold strippedLines at hp2
  obtain ⟨q, hq, hpq⟩ := List.mem_map.mp hp2
  have htrim : jsTrim p = p := by
    rw [← hpq]
    exact jsTrim_idem _
  have hq1 : q ∈ rawLines raw := hq
  unfold rawLines at hq1
  obtain ⟨hq2, _⟩ := List.mem_filter.mp hq1
  obtain ⟨r, hr, hqr⟩ := List.mem_map.mp hq2
  have hrlf : '\n' ∉ r := no_lf_mem_splitOnLF raw r hr
  have hplf : '\n' ∉ p := by
    intro hmem
    apply hrlf
    have h1 : ('\n' : Char) ∈ stripMarker q := by
      rw [← hpq] at hmem
      exact mem_of_mem_jsTrim _ _ hmem
    have h2 : ('\n' : Char) ∈ q := mem_of_mem_stripMarker _ _ h1
    rw [← hqr] at h2
    exact mem_of_mem_jsTrim _ _ h2
  exact ⟨htrim, hlen, hplf⟩

/-- Re-feeding a clean list of lines through stages 1–4 reproduces it. -/
theorem preSanitize_of_clean (out : List (List Char))
    (hinv : ∀ p ∈ out, jsTrim p = p ∧ 20 < p.length ∧ '\n' ∉ p)
    (hmark : ∀ p ∈ out, headIsMarker p = false) :
    preSanitize (joinLF out) = out := by
  cases out with
  | nil => rfl
  | cons p rest =>
    have hsplit : splitOnLF (joinLF (p :: rest)) = p :: rest :=
      splitOnLF_joinLF _ (fun x hx => (hinv x hx).2.2) (by simp)
    have e1 : (p :: rest).map jsTrim = p :: rest :=
      map_self_of_mem _ jsTrim (fun x hx => (hinv x hx).1)
    have e2 : (p :: rest).filter (fun l => decide (0 < l.length)) = p :: rest :=
      List.filter_eq_self.mpr (fun x hx => decide_eq_true (by
        have := (hinv x hx).2.1
        omega))
    have e3 : (p :: rest).map (fun l => jsTrim (stripMarker l)) = p :: rest :=
      map_self_of_mem _ _ (fun x hx => by
        rw [stripMarker_of_head_not_marker x (hmark x hx), (hinv x hx).1])
    have e4 : (p :: rest).filter (fun l => decide (20 < l.length)) = p :: rest :=
      List.filter_eq_self.mpr (fun x hx => decide_eq_true (hinv x hx).2.1)
    unfold preSanitize strippedLines rawLines lengthFilter
    rw [hsplit, e1, e2, e3, e4]

/-! ## Availability and translation lemmas -/

theorem isGroqAvailable_eq_not_blank (k : Option String) :
    isGroqAvailable k = !specNullOrBlank k := by
  cases k with
  | none => rfl
  | some s =>
    simp only [isGroqAvailable, specNullOrBlank]
    congr 1
    cases hb : s.data.all isJsWhite with
    | true =>
      have h : ∀ x ∈ s.data, isJsWhite x := fun x hx => List.all_eq_true.mp hb x hx
      rw [(jsTrim_eq_nil_iff s.data).mpr h]
      rfl
    | false =>
      rcases he : jsTrim s.data with _ | ⟨c, t⟩
      · have h := (jsTrim_eq_nil_iff s.data).mp he
        rw [List.all_eq_true.mpr (fun x hx => h x hx)] at hb
        cases hb
      · rfl

theorem isGeminiAvailable_eq_not_blank (k : Option String) :
    isGeminiAvailable k = !specNullOrBlank k :=
  isGroqAvailable_eq_not_blank k

theorem translateGo_length (env : Nat → ItemResponse) (ps : List String) (j : Nat) :
    (translateGo j env ps).length = ps.length := by
  induction ps generalizing j with
  | nil => rfl
  | cons p ps ih => simp [translateGo, ih]

theorem translateGo_get? (env : Nat → ItemResponse) (ps : List String) (j i : Nat)
    (h : i < ps.length) :
    (translateGo j env ps).get? i =
      some (translatePoint (ps.get ⟨i, h⟩) (env (j + i))) := by
  induction ps generalizing j i with
  | nil => simp at h
  | cons p ps ih =>
    cases i with
    | zero => simp [translateGo]
    | succ n =>
      have hn : n < ps.length := by simpa using h
      simp only [translateGo, List.get?_cons_succ, List.get_cons_succ]
      rw [ih (j + 1) n hn, show j + 1 + n = j + (n + 1) by omega]

theorem translatePoint_of_failed (t : String) (r : ItemResponse)
    (h : itemFailed r = true) : translatePoint t r = t := by
  cases r with
  | netError => rfl
  | httpError s => rfl
  | json d =>
    cases d with
    | none => rfl
    | some segs => simp [itemFailed] at h

/-! ## Claim-level theorems -/

/-- Claim C1 (code bug): with only the Groq key configured and the Groq
attempt failing, `summarize` does NOT propagate Groq's error to the caller:
it falls through to the final throw and reports the `API key required`
message that the claim (and spec section 4.2, and the code's own comment at
the throw site) reserve for the case where neither provider is configured. -/
theorem groq_only_failure_reports_missing_key :
    summarize (some "gsk_live_key") none c1Env = (.error apiKeyRequiredMsg, [.groq]) ∧
    c1GroqError ≠ apiKeyRequiredMsg :=
  ⟨by rfl, by decide⟩

/-- Claim C2 (code bug): after a successful translation of the displayed
summary, the session cache still returns the ORIGINAL points for the same
page: `handleTranslate` assigns only `currentSummaryPoints` (under the
comment `// Update cache`), never `cachedSummary`, so the cached points are
not replaced by the translated ones. -/
theorem translation_success_leaves_cached_points :
    (handleTranslateList c2Initial "T" "S" c2Env).currentSummaryPoints = ["TR"] ∧
    cacheGet (handleTranslateList c2Initial "T" "S" c2Env) "https://example.com/a" =
      some ("Title A", ["Original point one."]) ∧
    (["TR"] : List String) ≠ ["Original point one."] :=
  ⟨by decide, by decide, by decide⟩

/-- Claim C3 (code bug): on the spec's three-line example the pipeline keeps
the leading `". "` of the second line: the regex `^[•\-\*\d+\.\)]\s*` is a
character class matching one character, so `"2. "` loses only the digit and
the output is not the marker-free sentence the claim states. -/
theorem marker_strip_keeps_leading_dot :
    groqParsePoints c3Raw =
      [". This is a sufficiently long bullet point that should survive filtering."] ∧
    groqParsePoints c3Raw ≠
      ["This is a sufficiently long bullet point that should survive filtering."] :=
  ⟨by decide, by decide⟩

/-- Claim C4 counterexample: a two-line response whose first parsed element
lacks terminal punctuation still yields that element, so NOT every element of
the returned array ends in `.`, `!` or `?`. -/
theorem inner_element_may_lack_punctuation :
    ((groqParsePoints c4Raw).all (fun p => endsPunct p.data)) = false ∧
    ((geminiParsePoints c4Raw).all (fun p => endsPunct p.data)) = false ∧
    (groqParsePoints c4Raw).length = 2 :=
  ⟨by decide, by decide, by decide⟩

/-- Claim C4 (amended): every element of the array returned by
`summarizeWithGroq` or `summarizeWithGemini` is non-empty after trimming —
indeed trimmed and strictly longer than 20 characters — but only the element
inspected by the final completeness check is guaranteed to end in `.`, `!`
or `?`; inner elements need not. -/
theorem elements_nonempty_trimmed_long (generatedText : String) (p : String)
    (hp : p ∈ groqParsePoints generatedText ∨ p ∈ geminiParsePoints generatedText) :
    p.data ≠ [] ∧ jsTrim p.data = p.data ∧ 20 < p.data.length := by
  have hp' : p ∈ (sanitize generatedText.data).map (fun l => String.mk l) := by
    rcases hp with h | h <;> exact h
  obtain ⟨l, hl, hpl⟩ := List.mem_map.mp hp'
  obtain ⟨ht, hlen, _⟩ := sanitize_elem_spec _ _ hl
  have hdata : p.data = l := by rw [← hpl]
  rw [hdata]
  refine ⟨?_, ht, hlen⟩
  intro e
  rw [e] at hlen
  simp at hlen

/-- Witness for the amended C4 theorem at a concrete one-line response. -/
theorem elements_nonempty_trimmed_long_witness :
    c4WitnessRaw.data ≠ [] ∧ jsTrim c4WitnessRaw.data = c4WitnessRaw.data ∧
    20 < c4WitnessRaw.data.length :=
  elements_nonempty_trimmed_long c4WitnessRaw c4WitnessRaw (Or.inl (by decide))

/-- Claim C5 counterexample: an output whose only element ends with terminal
punctuation — so the claim's exception does not apply — is still changed by a
second pass, which strips another leading character of the marker class. -/
theorem second_pass_changes_digit_headed_output :
    ((sanitize c5Raw.data).all endsPunct) = true ∧
    sanitize (joinLF (sanitize c5Raw.data)) ≠ sanitize c5Raw.data :=
  ⟨by decide, by decide⟩

/-- Claim C5 (amended): provided no output element begins with a character of
the marker class, re-running the pipeline on the joined output only repeats
the final completeness check: it returns the output unchanged except that it
drops the last element when that element lacks terminal punctuation (even
when more than one element survives). -/
theorem second_pass_repeats_completeness_check (raw : List Char)
    (h : ∀ p ∈ sanitize raw, headIsMarker p = false) :
    sanitize (joinLF (sanitize raw)) = popIncomplete (sanitize raw) := by
  show popIncomplete (preSanitize (joinLF (sanitize raw))) = popIncomplete (sanitize raw)
  rw [preSanitize_of_clean (sanitize raw) (fun p hp => sanitize_elem_spec raw p hp) h]

/-- Witness for the amended C5 theorem at a concrete response. -/
theorem second_pass_repeats_completeness_check_witness :
    sanitize (joinLF (sanitize c5WitnessRaw.data)) = popIncomplete (sanitize c5WitnessRaw.data) :=
  second_pass_repeats_completeness_check c5WitnessRaw.data (by decide)

/-- Claim C6: `translate` returns an array of the same length whose `i`-th
element is determined by the `i`-th input and the `i`-th item's own response
alone — the translation on success, the original string on any per-item
failure — so one item's failure never affects siblings and never rejects the
whole call (the embedding is total). -/
theorem translate_preserves_length_order_fallback (points : List String)
    (env : Nat → ItemResponse) :
    (translate points env).length = points.length ∧
    (∀ i, ∀ h : i < points.length,
      (translate points env).get? i =
        some (translatePoint (points.get ⟨i, h⟩) (env i))) ∧
    (∀ i, ∀ h : i < points.length, itemFailed (env i) = true →
      (translate points env).get? i = some (points.get ⟨i, h⟩)) := by
  refine ⟨translateGo_length env points 0, ?_, ?_⟩
  · intro i h
    have := translateGo_get? env points 0 i h
    rwa [Nat.zero_add] at this
  · intro i h hf
    have h2 := translateGo_get? env points 0 i h
    rw [Nat.zero_add] at h2
    have h3 : (translate points env).get? i =
        some (translatePoint (points.get ⟨i, h⟩) (env i)) := h2
    rw [h3, translatePoint_of_failed _ _ hf]

/-- Witness for C6 at the spec's four-item example: the failing second item
falls back to its own original text. -/
theorem translate_preserves_length_order_fallback_witness :
    (translate c6Items c6Env).length = 4 ∧
    (translate c6Items c6Env).get? 1 = some "Subtitle" :=
  ⟨((translate_preserves_length_order_fallback c6Items c6Env).1).trans (by decide),
   (((translate_preserves_length_order_fallback c6Items c6Env).2.2) 1 (by decide)
     (by decide)).trans (by decide)⟩

/-- Claim C7: the session cache is a single slot with last-write-wins: after
a put, a get for a different page key is absent, and a second put for another
page makes the first page's entry absent. -/
theorem cache_single_slot_last_write_wins (s : ScriptState)
    (urlA urlB tA tB : String) (ptsA ptsB : List String) (hne : urlA ≠ urlB) :
    cacheGet (cachePut s urlA tA ptsA) urlB = none ∧
    cacheGet (cachePut (cachePut s urlA tA ptsA) urlB tB ptsB) urlA = none := by
  constructor
  · simp [cacheGet, cachePut, hne]
  · simp [cacheGet, cachePut, Ne.symm hne]

/-- Witness for C7 at concrete URLs. -/
theorem cache_single_slot_last_write_wins_witness :
    cacheGet (cachePut initialState "https://a" "TA" ["A."]) "https://b" = none ∧
    cacheGet (cachePut (cachePut initialState "https://a" "TA" ["A."])
      "https://b" "TB" ["B."]) "https://a" = none :=
  cache_single_slot_last_write_wins initialState "https://a" "https://b" "TA" "TB"
    ["A."] ["B."] (by decide)

/-- Claim C8 counterexample: a stripped line of exactly 20 characters is
discarded by the length filter, so it is not true that every stripped line of
20 or more characters passes. -/
theorem twenty_char_line_is_discarded :
    c8Line.data.length = 20 ∧
    jsTrim (stripMarker c8Line.data) = c8Line.data ∧
    lengthFilter [c8Line.data] = [] ∧
    groqParsePoints c8Line = [] :=
  ⟨by decide, by decide, by decide, by decide⟩

/-- Claim C8 (amended): the length filter discards exactly the stripped lines
of at most 20 characters: every stripped line STRICTLY longer than 20
characters passes this step, and every line of 20 or fewer characters is
discarded. -/
theorem length_filter_boundary (raw : List Char) (l : List Char) :
    (l ∈ strippedLines raw ∧ 20 < l.length → l ∈ preSanitize raw) ∧
    (l.length ≤ 20 → l ∉ preSanitize raw) := by
  constructor
  · rintro ⟨hm, hlen⟩
    unfold preSanitize lengthFilter
    exact List.mem_filter.mpr ⟨hm, decide_eq_true hlen⟩
  · intro hlen hmem
    unfold preSanitize lengthFilter at hmem
    have := of_decide_eq_true (List.mem_filter.mp hmem).2
    omega

/-- Witness for the amended C8 theorem: the 21-character line passes, the
20-character line does not. -/
theorem length_filter_boundary_witness :
    c8WitnessLine.data ∈ preSanitize c8WitnessLine.data ∧
    c8Line.data ∉ preSanitize c8WitnessLine.data :=
  ⟨(length_filter_boundary c8WitnessLine.data c8WitnessLine.data).1 ⟨by decide, by decide⟩,
   (length_filter_boundary c8WitnessLine.data c8Line.data).2 (by decide)⟩

/-- Claim C9: a key that is null or whitespace-only is treated as not
configured: that provider is never attempted, and when both keys are null or
blank `summarize` fails immediately with the `API key required` error and no
network call at all. -/
theorem blank_keys_are_not_configured (gk gmk : Option String) (env : ProviderEnv) :
    (specNullOrBlank gk = true → ProviderCall.groq ∉ (summarize gk gmk env).2) ∧
    (specNullOrBlank gmk = true → ProviderCall.gemini ∉ (summarize gk gmk env).2) ∧
    (specNullOrBlank gk = true → specNullOrBlank gmk = true →
      summarize gk gmk env = (.error apiKeyRequiredMsg, [])) := by
  refine ⟨fun h => ?_, fun h => ?_, fun h1 h2 => ?_⟩
  · have hga : isGroqAvailable gk = false := by
      rw [isGroqAvailable_eq_not_blank, h]
      rfl
    by_cases hm : isGeminiAvailable gmk
    · rcases he : env.geminiOutcome with e | pts <;> simp [summarize, hga, hm, he]
    · simp [summarize, hga, hm]
  · have hma : isGeminiAvailable gmk = false := by
      rw [isGeminiAvailable_eq_not_blank, h]
      rfl
    by_cases hg : isGroqAvailable gk
    · rcases he : env.groqOutcome with e | pts <;> simp [summarize, hg, hma, he]
    · simp [summarize, hg, hma]
  · have hga : isGroqAvailable gk = false := by
      rw [isGroqAvailable_eq_not_blank, h1]
      rfl
    have hma : isGeminiAvailable gmk = false := by
      rw [isGeminiAvailable_eq_not_blank, h2]
      rfl
    simp [summarize, hga, hma]

/-- Witness for C9: a whitespace-only Groq key and a null Gemini key reject
immediately with the `API key required` error and an empty call trace. -/
theorem blank_keys_are_not_configured_witness :
    summarize (some "   ") none c1Env = (.error apiKeyRequiredMsg, []) :=
  (blank_keys_are_not_configured (some "   ") none c1Env).2.2 (by decide) (by decide)

/-- Claim C10: a falsy or empty summarization result makes `displaySummary`
show an error and return without writing the cache, so the state is unchanged
and every stored cache entry keeps a non-empty points sequence. -/
theorem empty_summary_is_not_cached (s : ScriptState) (url title : String)
    (res : SummarizeResult) :
    (res = .resolved none ∨ res = .resolved (some []) →
      handleSummarizeResult s url title res =
        (s, .showedError "Could not generate summary. Please check your API key and try again.")) ∧
    ((∀ pts, s.cachedSummary = some pts → pts ≠ []) →
      ∀ pts, (handleSummarizeResult s url title res).1.cachedSummary = some pts → pts ≠ []) := by
  constructor
  · rintro (rfl | rfl)
    · rfl
    · rfl
  · intro hinv pts hpts
    rcases res with msg | opts
    · exact hinv pts hpts
    · rcases opts with _ | pl
      · exact hinv pts hpts
      · simp only [handleSummarizeResult] at hpts
        by_cases hl : pl.length = 0
        · rw [if_pos hl] at hpts
          exact hinv pts hpts
        · rw [if_neg hl] at hpts
          simp only [cachePut] at hpts
          injection hpts with hpl
          subst hpl
          intro e
          rw [e] at hl
          simp at hl

/-- Witness for C10: an empty resolved array at the initial state shows the
error and leaves the state untouched. -/
theorem empty_summary_is_not_cached_witness :
    handleSummarizeResult initialState "https://a" "T" (.resolved (some [])) =
      (initialState,
       .showedError "Could not generate summary. Please check your API key and try again.") :=
  (empty_summary_is_not_cached initialState "https://a" "T" (.resolved (some []))).1
    (Or.inr rfl)

end Briefly
